import Mathlib

/-!
Shallow embedding of the change-detection and notification pipeline of the
e-SUS APS monitor worker (`worker.js`), together with theorems settling the
specification claims about it.

Conventions of the embedding:
- JavaScript objects become Lean structures; a field that may be `null` /
  `undefined` or absent becomes an `Option`.
- JavaScript string falsiness (`!s` is true for `undefined`, `null` and `""`)
  is modelled by `strTruthy` on `Option String`.
- `async` functions that only interact with the outside world through awaited
  calls are modelled as pure functions parameterised by the outcomes of those
  calls (`Except Unit _` for a call that can throw).
- KV reads/writes are modelled by passing the current stored value in and
  returning the value stored afterwards.
-/

/-! ## Data model: source snapshots (worker.js lines 302-307, 400-405) -/

/-- Blog snapshot: `{ title, link, extractedAt }` as built by
`getLatestBlogPost` (the `attempt` counter is bookkeeping, not content). -/
structure BlogPost where
  title : Option String
  link : Option String
  extractedAt : Option String
deriving DecidableEq, Repr

/-- LEDI snapshot: `{ version, changes, extractedAt }` as built by
`getLatestLediVersion`. -/
structure LediVersion where
  version : Option String
  changes : Option String
  extractedAt : Option String
deriving DecidableEq, Repr

/-- JavaScript truthiness of a possibly-missing string field:
`undefined`, `null` and `""` are falsy, every other string is truthy. -/
def strTruthy : Option String → Bool
  | none => false
  | some s => decide (s ≠ "")

/-! ## Change detectors (worker.js lines 499-514) -/

/-- Embeds `hasNewBlogPost(current, stored)` (worker.js 499-505):
`if (!stored || !stored.title || !stored.link) return true;`
`return current.title !== stored.title || current.link !== stored.link;` -/
def hasNewBlogPost (current : BlogPost) (stored : Option BlogPost) : Bool :=
  match stored with
  | none => true
  | some st =>
    if !strTruthy st.title || !strTruthy st.link then true
    else decide (current.title ≠ st.title) || decide (current.link ≠ st.link)

/-- Embeds `hasNewLediVersion(current, stored)` (worker.js 508-514):
`if (!stored || !stored.version) return true;`
`return current.version !== stored.version;` -/
def hasNewLediVersion (current : LediVersion) (stored : Option LediVersion) : Bool :=
  match stored with
  | none => true
  | some st =>
    if !strTruthy st.version then true
    else decide (current.version ≠ st.version)

/-! ## Retrying scrapers (worker.js 275-370 and 373-460)

Both `getLatestBlogPost` and `getLatestLediVersion` run the same
`for (let attempt = 1; attempt <= maxRetries; attempt++)` loop with
`maxRetries = 3`.  One attempt (fetch + extract + validate) is modelled by an
oracle `Nat → Except E A` giving the outcome of attempt number `n`.  The
embedding returns the list of inter-attempt delays actually awaited, the
number of attempts made, and either the scraped value or the composite
failure `(lastError, attempts)` thrown after exhaustion
(`finalError.originalError = lastError; finalError.attempts = maxRetries`). -/

/-- Embeds `Math.min(1000 * Math.pow(2, attempt - 1), 5000)` (worker.js 358, 448). -/
def backoffDelay (attempt : Nat) : Nat :=
  min (1000 * 2 ^ (attempt - 1)) 5000

/-- Composite failure thrown after retry exhaustion: the last underlying
error (if any attempt ran) and the attempt count. -/
structure ScrapeFailure (E : Type) where
  originalError : Option E
  attempts : Nat
deriving DecidableEq, Repr

/-- One iteration step of the scraper retry loop.  `fuel` is the number of
loop iterations still allowed (`maxRetries - attempt + 1` at entry), so the
`fuel = 0` base case is the loop exiting.  Returns
(delays awaited between attempts, attempts made, outcome). -/
def retryGo {E A : Type} (oracle : Nat → Except E A) (maxRetries : Nat) :
    Nat → Nat → Option E → List Nat × Nat × Except (ScrapeFailure E) A
  | 0, _, lastError => ([], 0, Except.error ⟨lastError, maxRetries⟩)
  | fuel + 1, attempt, _ =>
    match oracle attempt with
    | Except.ok a => ([], 1, Except.ok a)
    | Except.error e =>
      if attempt < maxRetries then
        let r := retryGo oracle maxRetries fuel (attempt + 1) (some e)
        (backoffDelay attempt :: r.1, r.2.1 + 1, r.2.2)
      else ([], 1, Except.error ⟨some e, maxRetries⟩)

/-- The shared retry skeleton of `getLatestBlogPost` / `getLatestLediVersion`:
`maxRetries = 3`, attempts numbered from 1, `lastError` initially `null`. -/
def scrapeWithRetry {E A : Type} (oracle : Nat → Except E A) :
    List Nat × Nat × Except (ScrapeFailure E) A :=
  retryGo oracle 3 3 1 none

/-! ## Capped ring buffers for metrics and the error log
(worker.js 1853-1878 and 1892-1927)

`storeExecutionMetrics` reads the history, pushes the new entry, and keeps
only the last 50 via `slice(-50)` when the length exceeds 50;
`storeErrorLog` is identical with cap 100.  Entries are treated opaquely. -/

/-- Embeds `metricsHistory.push(metrics); if (length > 50) slice(-50)`
(worker.js 1864-1869). -/
def storeExecutionMetricsStep {M : Type} (history : List M) (m : M) : List M :=
  let pushed := history ++ [m]
  if pushed.length > 50 then pushed.drop (pushed.length - 50) else pushed

/-- Embeds `errorLogs.push(errorEntry); if (length > 100) slice(-100)`
(worker.js 1911-1916). -/
def storeErrorLogStep {E : Type} (logs : List E) (e : E) : List E :=
  let pushed := logs ++ [e]
  if pushed.length > 100 then pushed.drop (pushed.length - 100) else pushed

/-! ## Email validation and subscriber set (worker.js 119-186, 519-545, 629-642) -/

/-- A character matched by the regex class `[^\s@]`. -/
def isEmailChar (c : Char) : Bool :=
  !c.isWhitespace && decide (c ≠ '@')

/-- Whether the list has a `'.'` at some interior position `i` with at least
one character before it and at least one after it (`1 ≤ i ≤ length - 2`). -/
def hasInteriorDot (l : List Char) : Bool :=
  (List.range l.length).any fun i =>
    decide (l.getD i ' ' = '.') && decide (1 ≤ i) && decide (i + 1 < l.length)

/-- Character-level model of `String.prototype.trim`: strip whitespace from
both ends.  (JavaScript's and Lean's notions of whitespace differ on exotic
Unicode code points; no claim depends on those.) -/
def jsTrim (l : List Char) : List Char :=
  ((l.dropWhile Char.isWhitespace).reverse.dropWhile Char.isWhitespace).reverse

/-- Embeds `isValidEmail(email)` (worker.js 629-637): `false` for `null` /
non-string input, else `/^[^\s@]+@[^\s@]+\.[^\s@]+$/.test(email.trim())`.
The regex is unfolded: the trimmed string must be `A ++ "@" ++ R`, where `A`
(everything before the first `'@'`) is a nonempty run of `[^\s@]` characters
and `R` is a nonempty run of `[^\s@]` characters containing a dot that has at
least one character on each side.  (`[^\s@]` itself admits dots, so any
interior dot of `R` witnesses the `[^\s@]+\.[^\s@]+` split; a second `'@'`
anywhere makes the regex fail, exactly as `R.all isEmailChar` does.) -/
def isValidEmail : Option String → Bool
  | none => false
  | some email =>
    let s := jsTrim email.toList
    let first := s.takeWhile fun c => decide (c ≠ '@')
    match s.dropWhile (fun c => decide (c ≠ '@')) with
    | [] => false
    | _ :: rest =>
      decide (first ≠ []) && first.all isEmailChar &&
      decide (rest ≠ []) && rest.all isEmailChar && hasInteriorDot rest

/-- Embeds `normalizeEmail(email)` (worker.js 640-642):
`email.toLowerCase().trim()`, modelled character by character. -/
def normalizeEmail (email : String) : String :=
  String.mk (jsTrim (email.toList.map Char.toLower))

/-- Insertion into a JavaScript `Set` viewed as its insertion-ordered element
list: `set.add(a)` appends `a` unless already present. -/
def jsInsert (acc : List String) (a : String) : List String :=
  if a ∈ acc then acc else acc ++ [a]

/-- Worker of `jsSetOfList`. -/
def jsSetOfListGo (acc : List String) : List String → List String
  | [] => acc
  | a :: l => jsSetOfListGo (jsInsert acc a) l

/-- Embeds `new Set(array)` (worker.js 527, `getStoredEmails`): deduplicate keeping
the first occurrence of each element, preserving insertion order. -/
def jsSetOfList (l : List String) : List String :=
  jsSetOfListGo [] l

/-- Embeds `storeEmails(env, emailsSet)` (worker.js 536-545): `put` the set as an
array and return `true`; a throwing `put` is caught and yields `false`
with the KV content unchanged.  `putOk` is the outcome of the awaited `put`;
the returned pair is (the function's return value, the KV content after). -/
def storeEmails (kvEmails : List String) (putOk : Bool) (emailsSet : List String) :
    Bool × List String :=
  if putOk then (true, emailsSet) else (false, kvEmails)

/-- Response messages of `handleSubscription` (worker.js 126, 140, 169, 179). -/
def msgInvalidEmail : String := "E-mail inválido"

/-- Message of the already-subscribed response body (worker.js 140). -/
def msgAlreadySubscribed : String := "E-mail já está inscrito"

/-- Success response body message (worker.js 169). -/
def msgSubscribed : String := "Inscrição realizada com sucesso! Verifique seu e-mail."

/-- Observable outcome of one `POST /subscribe` request: HTTP status,
response body message, subscriber KV content afterwards, and whether a
confirmation email send was attempted. -/
structure SubOutcome where
  status : Nat
  message : String
  kvAfter : List String
  confirmationAttempted : Bool
deriving DecidableEq, Repr

/-- Embeds `handleSubscription(request, env)` (worker.js 119-186).  `emailInput` is
the parsed `email` field (`none` for `null`/absent/non-string), `kvEmails`
the current subscriber KV array and `putOk` the outcome of the KV `put`.
The JSON-parse-failure 500 path is outside the model (no request body).
Note the handler ignores the `Bool` returned by `storeEmails` and attempts
the best-effort confirmation email regardless. -/
def handleSubscription (emailInput : Option String) (kvEmails : List String)
    (putOk : Bool) : SubOutcome :=
  match emailInput with
  | none => ⟨400, msgInvalidEmail, kvEmails, false⟩
  | some email =>
    if !isValidEmail (some email) then
      ⟨400, msgInvalidEmail, kvEmails, false⟩
    else
      let normalizedEmail := normalizeEmail email
      let existingEmails := jsSetOfList kvEmails
      if normalizedEmail ∈ existingEmails then
        ⟨200, msgAlreadySubscribed, kvEmails, false⟩
      else
        let updated := existingEmails ++ [normalizedEmail]
        let written := storeEmails kvEmails putOk updated
        ⟨200, msgSubscribed, written.2, true⟩

/-! ## System status and health check (worker.js 189-221, 592-614, 1983-2018) -/

/-- System status record as written by `storeSystemStatus` callers:
`{ lastCheck, blogStatus, lediStatus, emailStatus, lastError?, recoveryAttempted? }`.
The records the system writes never carry a top-level `status` key. -/
structure SystemStatusRec where
  lastCheck : Option String
  blogStatus : String
  lediStatus : String
  emailStatus : String
  lastError : Option String
  recoveryAttempted : Bool
deriving DecidableEq, Repr

/-- One execution-metric entry, restricted to the fields the health report
reads (`success`, `duration`); the remaining fields are opaque strings. -/
structure Metric where
  success : Bool
  duration : Nat
deriving DecidableEq, Repr

/-- Embeds `getSystemStatus(env)` (worker.js 592-614): a throwing KV read is caught
and yields the all-`error` record; a missing record yields the all-`unknown`
record.  `read` is the outcome of the awaited KV `get`. -/
def getSystemStatus (read : Except Unit (Option SystemStatusRec)) : SystemStatusRec :=
  match read with
  | Except.error _ => ⟨none, "error", "error", "error", none, false⟩
  | Except.ok none => ⟨none, "unknown", "unknown", "unknown", none, false⟩
  | Except.ok (some s) => s

/-- Embeds `getExecutionMetrics(env)` (worker.js 1881-1889): `[]` on a missing
record or a throwing read. -/
def getExecutionMetrics (read : Except Unit (Option (List Metric))) : List Metric :=
  match read with
  | Except.error _ => []
  | Except.ok none => []
  | Except.ok (some l) => l

/-- Body of the `/health` response: either the assembled report
`{...status, metrics: {...}, lastExecution}` of `getDetailedSystemHealth`
(which has no top-level `status` or `timestamp` key, since the spread status
record carries neither), or the catch-branch document
`{status: 'error', error, timestamp}` (worker.js 2012-2016).  The
floating-point aggregates `recentSuccessRate` / `averageDuration` are
IEEE-double arithmetic and are not modelled; no claim mentions them. -/
inductive HealthBody where
  | report (st : SystemStatusRec) (totalExecutions : Nat) (subscriberCount : Nat)
      (lastExecution : Option Metric)
  | failure (message : String) (timestamp : String)
deriving DecidableEq, Repr

/-- JavaScript read of `detailedHealth.status`: the report body has no such
key (`undefined`, modelled `none`); the failure body has `'error'`. -/
def healthStatusField : HealthBody → Option String
  | HealthBody.report _ _ _ _ => none
  | HealthBody.failure _ _ => some "error"

/-- Whether the JSON response body carries a top-level `timestamp` key. -/
def carriesTimestamp : HealthBody → Bool
  | HealthBody.report _ _ _ _ => false
  | HealthBody.failure _ _ => true

/-- Embeds `getDetailedSystemHealth(env)` (worker.js 1983-2018).  All three callees
(`getSystemStatus`, `getExecutionMetrics`, `getSubscriberCount`) catch their
own KV failures internally, so the function's own catch branch
(`{status:'error', ...}`) is unreachable from a store failure and the
assembled report is always produced. -/
def getDetailedSystemHealth (statusRead : Except Unit (Option SystemStatusRec))
    (metricsRead : Except Unit (Option (List Metric))) (subscriberCount : Nat) :
    HealthBody :=
  let status := getSystemStatus statusRead
  let metrics := getExecutionMetrics metricsRead
  HealthBody.report status metrics.length subscriberCount metrics.getLast?

/-- Embeds `handleHealthCheck(env)` (worker.js 189-221): HTTP status is
`detailedHealth.status === 'error' ? 503 : 200`; the outer catch (500 with a
timestamp) fires only if `getDetailedSystemHealth` itself throws, which the
embedding above shows it cannot do on a store failure. -/
def handleHealthCheck (statusRead : Except Unit (Option SystemStatusRec))
    (metricsRead : Except Unit (Option (List Metric))) (subscriberCount : Nat) :
    Nat × HealthBody :=
  let detailedHealth := getDetailedSystemHealth statusRead metricsRead subscriberCount
  (if healthStatusField detailedHealth = some "error" then 503 else 200, detailedHealth)

/-! ## Notifier (worker.js 1078-1151) -/

/-- Payload of a queued notification (worker.js 672-675, 698-701). -/
inductive NotifData where
  | blog (post : BlogPost)
  | ledi (ver : LediVersion)
deriving DecidableEq, Repr

/-- Record `{ type, data }` as pushed by `checkForUpdates`; `type` is kept as a raw
string because `sendNotificationEmails` compares it against `'blog'` /
`'ledi'` and skips (`continue`) anything else. -/
structure Notification where
  type : String
  data : NotifData
deriving DecidableEq, Repr

/-- Single-notification subject for a blog update (worker.js 1117). -/
def blogSubject : String := "📝 Nova postagem no e-SUS APS!"

/-- Single-notification subject for a LEDI update (worker.js 1120). -/
def lediSubject : String := "🔧 Nova versão da API LEDI!"

/-- Consolidated-email subject (worker.js 1093). -/
def consolidatedSubject (n : Nat) : String :=
  "🔔 " ++ toString n ++ " novas atualizações do e-SUS APS!"

/-- Subject chosen for one notification in the single-notification branch
(worker.js 1116-1124); `none` models the `continue` on unknown types. -/
def notifSubject (n : Notification) : Option String :=
  if n.type = "blog" then some blogSubject
  else if n.type = "ledi" then some lediSubject
  else none

/-- Embeds `sendNotificationEmails(env, notifications)` (worker.js 1078-1151).
`kvEmails` is the subscriber KV array (read through `getStoredEmails`, i.e.
a JS `Set`); `sendOk` gives the outcome of one `emailService.sendEmail`
call (recipient, subject) — `false` covers both a `false` return and a
caught per-recipient throw.  Returns the count of confirmed sends and the
list of send attempts actually made, in order.  The 100 ms pacing delay
between sends has no observable effect on these outputs.
With more than one notification, one consolidated email per subscriber;
otherwise one email per subscriber per (known-type) notification. -/
def sendNotificationEmails (kvEmails : List String) (notifications : List Notification)
    (sendOk : String → String → Bool) : Nat × List (String × String) :=
  let emailList := jsSetOfList kvEmails
  if emailList.isEmpty then (0, [])
  else if notifications.length > 1 then
    let subject := consolidatedSubject notifications.length
    let attempts := emailList.map fun e => (e, subject)
    ((attempts.filter fun a => sendOk a.1 a.2).length, attempts)
  else
    let attempts := notifications.foldl
      (fun acc n =>
        match notifSubject n with
        | none => acc
        | some subject => acc ++ emailList.map fun e => (e, subject))
      []
    ((attempts.filter fun a => sendOk a.1 a.2).length, attempts)

/-! ## Update orchestrator (worker.js 647-741) -/

/-- Result of one `checkForUpdates` run: the function's return value
(`hasUpdates`, `notifications`, `status`) plus the snapshot KV contents
after the run (tracking the `storeBlogPost` / `storeLediVersion` writes). -/
structure RunResult where
  hasUpdates : Bool
  notifications : List Notification
  status : SystemStatusRec
  blogKv : Option BlogPost
  lediKv : Option LediVersion
deriving DecidableEq, Repr

/-- The per-source blog block of `checkForUpdates` (worker.js 662-683):
on scrape success compare with the detector, persist the new snapshot and
queue a notification; on scrape failure mark `blogStatus` `'error'` and
continue.  Returns (blogStatus, queued notifications, blog KV after). -/
def blogCheckStep (blogScrape : Except Unit BlogPost) (storedBlog : Option BlogPost) :
    String × List Notification × Option BlogPost :=
  match blogScrape with
  | Except.error _ => ("error", [], storedBlog)
  | Except.ok cur =>
    if hasNewBlogPost cur storedBlog then ("ok", [⟨"blog", NotifData.blog cur⟩], some cur)
    else ("ok", [], storedBlog)

/-- The per-source LEDI block of `checkForUpdates` (worker.js 688-709). -/
def lediCheckStep (lediScrape : Except Unit LediVersion) (storedLedi : Option LediVersion) :
    String × List Notification × Option LediVersion :=
  match lediScrape with
  | Except.error _ => ("error", [], storedLedi)
  | Except.ok cur =>
    if hasNewLediVersion cur storedLedi then ("ok", [⟨"ledi", NotifData.ledi cur⟩], some cur)
    else ("ok", [], storedLedi)

/-- Embeds `checkForUpdates(env)` (worker.js 647-741).  `now` is the run's
`new Date().toISOString()`; the scrape outcomes and stored snapshots are
passed in; `sendStep` is the outcome of the awaited
`sendNotificationEmails` call (`Except.error` models a throw, handled by the
catch at worker.js 722-725).  `hasUpdates` is set exactly when a
notification was queued, so the guard
`hasUpdates && notifications.length > 0` reduces to the queue being
nonempty.  Snapshot writes happen inside the per-source blocks, before any
email is sent. -/
def checkForUpdates (now : String) (blogScrape : Except Unit BlogPost)
    (storedBlog : Option BlogPost) (lediScrape : Except Unit LediVersion)
    (storedLedi : Option LediVersion)
    (sendStep : List Notification → Except Unit Nat) : RunResult :=
  let b := blogCheckStep blogScrape storedBlog
  let l := lediCheckStep lediScrape storedLedi
  let notifications := b.2.1 ++ l.2.1
  let hasUpdates := !b.2.1.isEmpty || !l.2.1.isEmpty
  let emailStatus :=
    if hasUpdates && notifications.length > 0 then
      match sendStep notifications with
      | Except.ok emailsSent => if emailsSent = 0 then "warning" else "ok"
      | Except.error _ => "error"
    else "ok"
  { hasUpdates := hasUpdates
    notifications := notifications
    status := ⟨some now, b.1, l.1, emailStatus, none, false⟩
    blogKv := b.2.2
    lediKv := l.2.2 }

/-- Composition of `checkForUpdates` with the email step instantiated to the real
`sendNotificationEmails`, which never throws (its body is wrapped in a
`try`/`catch` returning `0`), over the subscriber KV array `kvEmails`. -/
def checkForUpdatesWithEmails (now : String) (blogScrape : Except Unit BlogPost)
    (storedBlog : Option BlogPost) (lediScrape : Except Unit LediVersion)
    (storedLedi : Option LediVersion) (kvEmails : List String)
    (sendOk : String → String → Bool) : RunResult :=
  checkForUpdates now blogScrape storedBlog lediScrape storedLedi
    fun ns => Except.ok (sendNotificationEmails kvEmails ns sendOk).1

/-! ## Recovery (worker.js 1930-1980) -/

/-- Whether an error message indicates a network-class failure:
`error.message.includes('fetch') || error.message.includes('network')`
(worker.js 1941). -/
def containsSub (hay needle : List Char) : Bool :=
  hay.tails.any fun t => needle.isPrefixOf t

/-- Test from worker.js 1941 applied to `error.message`. -/
def networkClassError (msg : String) : Bool :=
  containsSub msg.toList "fetch".toList || containsSub msg.toList "network".toList

/-- Status record persisted by `attemptRecovery` when it gives up
(worker.js 1965-1972). -/
def recoveryStatusRecord (now errMsg : String) : SystemStatusRec :=
  ⟨some now, "error", "error", "error", some errMsg, true⟩

/-- Observable outcome of one `attemptRecovery` call: whether the original
error was appended to the error log, the delays awaited, how many times the
full update check was re-run, whether a recovery-run failure was also
logged, the system-status record written (if any), and the return value. -/
structure RecoveryOutcome where
  originalLogged : Bool
  waits : List Nat
  recoveryRuns : Nat
  recoveryErrorLogged : Bool
  statusWrite : Option SystemStatusRec
  result : Bool
deriving DecidableEq, Repr

/-- Embeds `attemptRecovery(env, error)` (worker.js 1930-1980).  `errMsg` is
`error.message`; `recoveryRun` is the outcome of the single re-invocation of
`checkForUpdates` (made only on the network-class path after a 30 s wait).
Partial success (some source `ok`) returns `true` before any status write;
every other path persists `recoveryStatusRecord` and returns `false`. -/
def attemptRecovery (now : String) (errMsg : String)
    (recoveryRun : Except Unit RunResult) : RecoveryOutcome :=
  if networkClassError errMsg then
    match recoveryRun with
    | Except.ok result =>
      if result.status.blogStatus = "ok" || result.status.lediStatus = "ok" then
        ⟨true, [30000], 1, false, none, true⟩
      else
        ⟨true, [30000], 1, false, some (recoveryStatusRecord now errMsg), false⟩
    | Except.error _ =>
      ⟨true, [30000], 1, true, some (recoveryStatusRecord now errMsg), false⟩
  else
    ⟨true, [], 0, false, some (recoveryStatusRecord now errMsg), false⟩

/-!
Helper lemmas shared by the claim theorems below.
-/

/-- The metrics ring-buffer step always keeps exactly the most recent
entries: push, then drop from the front down to the cap. -/
theorem storeExecutionMetricsStep_eq_drop {M : Type} (history : List M) (m : M) :
    storeExecutionMetricsStep history m =
      (history ++ [m]).drop (history.length + 1 - 50) := by
  simp only [storeExecutionMetricsStep, List.length_append, List.length_singleton]
  split
  · rfl
  · next hle => rw [Nat.sub_eq_zero_of_le (by omega), List.drop_zero]

/-- After a metrics append the buffer never exceeds 50 entries. -/
theorem storeExecutionMetricsStep_length_le {M : Type} (history : List M) (m : M) :
    (storeExecutionMetricsStep history m).length ≤ 50 := by
  rw [storeExecutionMetricsStep_eq_drop]
  simp only [List.length_drop, List.length_append, List.length_singleton]
  omega

/-- The error-log ring-buffer step always keeps exactly the most recent
entries: push, then drop from the front down to the cap. -/
theorem storeErrorLogStep_eq_drop {E : Type} (logs : List E) (e : E) :
    storeErrorLogStep logs e = (logs ++ [e]).drop (logs.length + 1 - 100) := by
  simp only [storeErrorLogStep, List.length_append, List.length_singleton]
  split
  · rfl
  · next hle => rw [Nat.sub_eq_zero_of_le (by omega), List.drop_zero]

/-- After an error-log append the buffer never exceeds 100 entries. -/
theorem storeErrorLogStep_length_le {E : Type} (logs : List E) (e : E) :
    (storeErrorLogStep logs e).length ≤ 100 := by
  rw [storeErrorLogStep_eq_drop]
  simp only [List.length_drop, List.length_append, List.length_singleton]
  omega

/-- Folding the metrics step over a batch of appends keeps exactly the most
recent 50 entries (for any starting buffer within the cap). -/
theorem foldl_storeExecutionMetricsStep {M : Type} (ms : List M) (acc : List M)
    (hacc : acc.length ≤ 50) :
    List.foldl storeExecutionMetricsStep acc ms =
      (acc ++ ms).drop (acc.length + ms.length - 50) := by
  induction ms generalizing acc with
  | nil =>
    simp only [List.foldl_nil, List.append_nil, List.length_nil, Nat.add_zero]
    rw [Nat.sub_eq_zero_of_le hacc, List.drop_zero]
  | cons m ms ih =>
    rw [List.foldl_cons, ih _ (storeExecutionMetricsStep_length_le acc m),
      storeExecutionMetricsStep_eq_drop]
    rcases Nat.le_total (acc.length + 1) 50 with hle | hgt
    · rw [Nat.sub_eq_zero_of_le hle, List.drop_zero]
      rw [List.append_assoc, List.singleton_append]
      congr 1
      simp only [List.length_nil, List.length_append, List.length_singleton,
        List.length_cons]
      omega
    · have hk : acc.length + 1 - 50 ≤ (acc ++ [m]).length := by simp; omega
      rw [List.length_drop, ← List.drop_append_of_le_length hk, List.drop_drop]
      have hasc : (acc ++ [m]) ++ ms = acc ++ m :: ms := by
        simp [List.append_assoc]
      rw [hasc]
      congr 1
      simp only [List.length_nil, List.length_append, List.length_singleton,
        List.length_cons]
      omega

/-- Membership characterisation of the `Set`-building fold. -/
theorem jsSetOfListGo_mem (x : String) (l acc : List String) :
    x ∈ jsSetOfListGo acc l ↔ x ∈ acc ∨ x ∈ l := by
  induction l generalizing acc with
  | nil => simp [jsSetOfListGo]
  | cons a l ih =>
    simp only [jsSetOfListGo, ih, jsInsert]
    by_cases hc : a ∈ acc
    · rw [if_pos hc]
      constructor
      · rintro (hm | hm)
        · exact Or.inl hm
        · exact Or.inr (List.mem_cons_of_mem a hm)
      · rintro (hm | hm)
        · exact Or.inl hm
        · rcases List.mem_cons.mp hm with rfl | hm2
          · exact Or.inl hc
          · exact Or.inr hm2
    · rw [if_neg hc]
      simp only [List.mem_append, List.mem_singleton, List.mem_cons]
      tauto

/-- The `Set`-building fold never introduces duplicates. -/
theorem jsSetOfListGo_nodup (l acc : List String) (hacc : acc.Nodup) :
    (jsSetOfListGo acc l).Nodup := by
  induction l generalizing acc with
  | nil => simpa [jsSetOfListGo]
  | cons a l ih =>
    apply ih
    simp only [jsInsert]
    by_cases hc : a ∈ acc
    · rwa [if_pos hc]
    · rw [if_neg hc, List.nodup_append]
      refine ⟨hacc, List.nodup_singleton a, ?_⟩
      intro x hx hmem
      simp only [List.mem_singleton] at hmem
      subst hmem
      exact hc hx

/-- Building a JS `Set` from an array preserves membership. -/
theorem jsSetOfList_mem (x : String) (l : List String) :
    x ∈ jsSetOfList l ↔ x ∈ l := by
  simp [jsSetOfList, jsSetOfListGo_mem]

/-- A JS `Set` built from an array has no duplicates. -/
theorem jsSetOfList_nodup (l : List String) : (jsSetOfList l).Nodup :=
  jsSetOfListGo_nodup l [] List.nodup_nil

/-- The retry loop makes at most `fuel` attempts. -/
theorem retryGo_attempts_le {E A : Type} (oracle : Nat → Except E A)
    (m fuel attempt : Nat) (lastErr : Option E) :
    (retryGo oracle m fuel attempt lastErr).2.1 ≤ fuel := by
  induction fuel generalizing attempt lastErr with
  | zero => simp [retryGo]
  | succ f ih =>
    simp only [retryGo]
    cases oracle attempt with
    | ok a => simp
    | error e =>
      by_cases h : attempt < m
      · simp only [h, if_true]
        exact Nat.succ_le_succ (ih _ _)
      · simp [h]

/-!
Claim theorems.
-/

/-- C1: the change detectors implement the stated policy.  For the blog
detector: a missing stored snapshot, or a stored snapshot whose `title` or
`link` field is falsy (absent or empty — JavaScript's notion of a missing
defining field), is always reported as new; a stored snapshot with both
defining fields present is reported new exactly when `title` or `link`
differs by exact string comparison.  The LEDI detector behaves likewise on
`version`.  In particular two snapshots differing in exactly the `link`
field are always reported as new. -/
theorem change_detector_policy :
    (∀ c : BlogPost, hasNewBlogPost c none = true) ∧
    (∀ c st : BlogPost, strTruthy st.title = false ∨ strTruthy st.link = false →
        hasNewBlogPost c (some st) = true) ∧
    (∀ c st : BlogPost, strTruthy st.title = true → strTruthy st.link = true →
        (hasNewBlogPost c (some st) = true ↔ (c.title ≠ st.title ∨ c.link ≠ st.link))) ∧
    (∀ c : LediVersion, hasNewLediVersion c none = true) ∧
    (∀ c st : LediVersion, strTruthy st.version = false →
        hasNewLediVersion c (some st) = true) ∧
    (∀ c st : LediVersion, strTruthy st.version = true →
        (hasNewLediVersion c (some st) = true ↔ c.version ≠ st.version)) ∧
    (∀ c st : BlogPost, c.title = st.title → c.link ≠ st.link →
        hasNewBlogPost c (some st) = true) := by
  refine ⟨fun c => rfl, ?_, ?_, fun c => rfl, ?_, ?_, ?_⟩
  · intro c st h
    rcases h with h | h <;> simp [hasNewBlogPost, h]
  · intro c st ht hl
    simp [hasNewBlogPost, ht, hl]
  · intro c st h
    simp [hasNewLediVersion, h]
  · intro c st h
    simp [hasNewLediVersion, h]
  · intro c st ht hl
    by_cases h : strTruthy st.title = true
    · simp [hasNewBlogPost, h, ht, hl]
    · simp only [Bool.not_eq_true] at h
      simp [hasNewBlogPost, h]

/-- Witness for C1: two concrete snapshots equal in `title` and differing
exactly in `link` are reported as new. -/
theorem change_detector_policy_witness :
    hasNewBlogPost ⟨some "t", some "x", none⟩ (some ⟨some "t", some "y", none⟩) = true :=
  change_detector_policy.2.2.2.2.2.2 ⟨some "t", some "x", none⟩ ⟨some "t", some "y", none⟩
    rfl (by decide)

/-- C2: each scraper makes at most 3 attempts; between consecutive failed
attempts it waits exactly `min(1000 * 2^(attempt-1), 5000)` ms, so a source
failing twice observes exactly the delays `[1000, 2000]` (non-decreasing,
each at most 5000 ms) whether the third attempt succeeds or not; when all 3
attempts fail, the single composite failure carries the last underlying
error and `attempts = 3`. -/
theorem scraper_retry_policy {E A : Type} (oracle : Nat → Except E A) :
    (∀ e1 e2 a, oracle 1 = Except.error e1 → oracle 2 = Except.error e2 →
       oracle 3 = Except.ok a →
       scrapeWithRetry oracle = ([1000, 2000], 3, Except.ok a)) ∧
    (∀ e1 e2 e3, oracle 1 = Except.error e1 → oracle 2 = Except.error e2 →
       oracle 3 = Except.error e3 →
       scrapeWithRetry oracle = ([1000, 2000], 3, Except.error ⟨some e3, 3⟩)) ∧
    (scrapeWithRetry oracle).2.1 ≤ 3 ∧
    (∀ n, backoffDelay n = min (1000 * 2 ^ (n - 1)) 5000) ∧
    (∀ n, backoffDelay n ≤ 5000) ∧
    (∀ n, 1 ≤ n → backoffDelay n ≤ backoffDelay (n + 1)) ∧
    backoffDelay 1 = 1000 ∧ backoffDelay 2 = 2000 := by
  refine ⟨?_, ?_, retryGo_attempts_le oracle 3 3 1 none, fun n => rfl, ?_, ?_, rfl, rfl⟩
  · intro e1 e2 a h1 h2 h3
    simp [scrapeWithRetry, retryGo, h1, h2, h3, backoffDelay]
  · intro e1 e2 e3 h1 h2 h3
    simp [scrapeWithRetry, retryGo, h1, h2, h3, backoffDelay]
  · intro n
    exact Nat.min_le_right _ _
  · intro n hn
    have hp : 1000 * 2 ^ (n - 1) ≤ 1000 * 2 ^ (n + 1 - 1) := by
      apply Nat.mul_le_mul_left
      exact Nat.pow_le_pow_right (by norm_num) (by omega)
    exact min_le_min hp (Nat.le_refl _)

/-- Witness for C2: a source failing twice then succeeding yields the two
delays and the value; a source always failing yields the composite failure
with the last error and `attempts = 3`. -/
theorem scraper_retry_policy_witness :
    scrapeWithRetry (fun n => if n = 3 then (Except.ok 7 : Except Nat Nat) else Except.error n)
      = ([1000, 2000], 3, Except.ok 7) ∧
    scrapeWithRetry (fun n => (Except.error n : Except Nat Nat))
      = ([1000, 2000], 3, Except.error ⟨some 3, 3⟩) :=
  ⟨(scraper_retry_policy
      (fun n => if n = 3 then (Except.ok 7 : Except Nat Nat) else Except.error n)).1
      1 2 7 rfl rfl rfl,
   (scraper_retry_policy (fun n => (Except.error n : Except Nat Nat))).2.1
      1 2 3 rfl rfl rfl⟩

/-- C3: the execution-metrics and error-log buffers are bounded ring
buffers: after every append the metrics buffer holds at most 50 entries and
the error log at most 100; each append keeps exactly the most recent
entries of `old ++ [new]` (oldest evicted first); and 60 successive metric
appends starting from an empty buffer leave exactly the 50 most recent
entries in append order. -/
theorem ring_buffer_caps {M E : Type} (history : List M) (m : M)
    (logs : List E) (e : E) (ms : List M) (h60 : ms.length = 60) :
    (storeExecutionMetricsStep history m).length ≤ 50 ∧
    storeExecutionMetricsStep history m =
      (history ++ [m]).drop (history.length + 1 - 50) ∧
    (storeErrorLogStep logs e).length ≤ 100 ∧
    storeErrorLogStep logs e = (logs ++ [e]).drop (logs.length + 1 - 100) ∧
    List.foldl storeExecutionMetricsStep [] ms = ms.drop 10 := by
  refine ⟨storeExecutionMetricsStep_length_le history m,
    storeExecutionMetricsStep_eq_drop history m,
    storeErrorLogStep_length_le logs e,
    storeErrorLogStep_eq_drop logs e, ?_⟩
  rw [foldl_storeExecutionMetricsStep ms [] (by simp)]
  simp [h60]

/-- Witness for C3: appending the 60 entries `0..59` to an empty metrics
buffer leaves exactly the last 50 in order. -/
theorem ring_buffer_caps_witness :
    (List.range 60).length = 60 ∧
    List.foldl storeExecutionMetricsStep [] (List.range 60) = (List.range 60).drop 10 :=
  ⟨by simp,
   (ring_buffer_caps ([] : List Nat) 0 ([] : List Nat) 0 (List.range 60) (by simp)).2.2.2.2⟩

/-- C4 counterexample: when the KV read of the system status record throws,
`getSystemStatus` swallows the failure, so `/health` answers 200 — not a
5xx status — and the report body carries no top-level timestamp field. -/
theorem health_check_store_throw_counterexample :
    (handleHealthCheck (Except.error ()) (Except.ok none) 0).1 = 200 ∧
    carriesTimestamp (handleHealthCheck (Except.error ()) (Except.ok none) 0).2 = false ∧
    ¬ 500 ≤ (handleHealthCheck (Except.error ()) (Except.ok none) 0).1 :=
  ⟨rfl, rfl, by decide⟩

/-- C4 amended: if the status read throws, `getSystemStatus` catches it and
returns a record with all three source statuses `'error'`; `/health` then
responds 200 with that degraded record as the report body (which has no
top-level `status` or `timestamp` key), for every metrics-read outcome and
subscriber count.  The 503 path fires only when the health document itself
carries `status = 'error'`, which a store-read failure never produces. -/
theorem health_check_store_throw_amended (metricsRead : Except Unit (Option (List Metric)))
    (subscriberCount : Nat) :
    (handleHealthCheck (Except.error ()) metricsRead subscriberCount).1 = 200 ∧
    (handleHealthCheck (Except.error ()) metricsRead subscriberCount).2 =
      HealthBody.report ⟨none, "error", "error", "error", none, false⟩
        (getExecutionMetrics metricsRead).length subscriberCount
        (getExecutionMetrics metricsRead).getLast? ∧
    carriesTimestamp (handleHealthCheck (Except.error ()) metricsRead subscriberCount).2
      = false := by
  refine ⟨?_, ?_, ?_⟩ <;>
    simp [handleHealthCheck, getDetailedSystemHealth, getSystemStatus, healthStatusField,
      carriesTimestamp]

/-- C5 counterexample: applying either detector to two identical snapshots
whose defining fields are absent reports a change — the bootstrap branch
fires before the equality comparison, so `isNew(S, S)` is not `false`
without a precondition on which fields of `S` are present. -/
theorem isNew_not_idempotent_counterexample :
    hasNewBlogPost ⟨none, none, none⟩ (some ⟨none, none, none⟩) = true ∧
    hasNewLediVersion ⟨none, none, none⟩ (some ⟨none, none, none⟩) = true :=
  ⟨rfl, rfl⟩

/-- C5 amended: for every snapshot whose defining fields are present and
non-empty (`title` and `link` for the blog, `version` for LEDI), applying
either detector to two identical snapshots reports no change. -/
theorem isNew_idempotent_complete (p : BlogPost) (v : LediVersion)
    (ht : strTruthy p.title = true) (hl : strTruthy p.link = true)
    (hv : strTruthy v.version = true) :
    hasNewBlogPost p (some p) = false ∧ hasNewLediVersion v (some v) = false := by
  constructor <;> simp [hasNewBlogPost, hasNewLediVersion, ht, hl, hv]

/-- Witness for C5 amended: concrete complete snapshots compare as
unchanged against themselves. -/
theorem isNew_idempotent_complete_witness :
    hasNewBlogPost ⟨some "t", some "l", none⟩ (some ⟨some "t", some "l", none⟩) = false ∧
    hasNewLediVersion ⟨some "1", none, none⟩ (some ⟨some "1", none, none⟩) = false :=
  isNew_idempotent_complete ⟨some "t", some "l", none⟩ ⟨some "1", none, none⟩
    (by decide) (by decide) (by decide)

/-- C6 counterexample: a run that queued one notification but has zero
subscribers (the subscriber KV array is empty) still sets the email status
to `warning` — the code marks `warning` whenever the send call returned 0,
with no check that subscribers exist. -/
theorem email_warning_without_subscribers_counterexample :
    (checkForUpdatesWithEmails "t" (Except.ok ⟨some "T", some "L", none⟩) none
        (Except.error ()) none [] fun _ _ => true).notifications.length = 1 ∧
    (checkForUpdatesWithEmails "t" (Except.ok ⟨some "T", some "L", none⟩) none
        (Except.error ()) none [] fun _ _ => true).status.emailStatus = "warning" :=
  ⟨rfl, rfl⟩

/-- C6 amended: in a run that queued at least one notification, the email
status is `warning` exactly when the send call reported zero emails sent —
whether or not any subscribers exist; a throw during sending sets the email
status to `error`; in either case the snapshot writes committed earlier in
the run are preserved (a source scraped successfully and detected as new
has its snapshot stored regardless of the email outcome). -/
theorem email_status_policy (now : String) (bs : Except Unit BlogPost)
    (sb : Option BlogPost) (ls : Except Unit LediVersion) (sl : Option LediVersion)
    (send : List Notification → Except Unit Nat) (r : RunResult)
    (hr : r = checkForUpdates now bs sb ls sl send)
    (hq : r.notifications ≠ []) :
    (∀ n, send r.notifications = Except.ok n →
        (r.status.emailStatus = "warning" ↔ n = 0)) ∧
    (send r.notifications = Except.error () → r.status.emailStatus = "error") ∧
    (∀ cur, bs = Except.ok cur → hasNewBlogPost cur sb = true → r.blogKv = some cur) ∧
    (∀ cur, ls = Except.ok cur → hasNewLediVersion cur sl = true → r.lediKv = some cur) := by
  subst hr
  have hnot : (checkForUpdates now bs sb ls sl send).notifications =
      (blogCheckStep bs sb).2.1 ++ (lediCheckStep ls sl).2.1 := rfl
  rw [hnot] at hq
  have hguard : ((!(blogCheckStep bs sb).2.1.isEmpty || !(lediCheckStep ls sl).2.1.isEmpty) &&
      decide (((blogCheckStep bs sb).2.1 ++ (lediCheckStep ls sl).2.1).length > 0)) = true := by
    rcases hb : (blogCheckStep bs sb).2.1 with _ | ⟨x, xs⟩ <;>
      rcases hl : (lediCheckStep ls sl).2.1 with _ | ⟨y, ys⟩ <;>
      simp_all
  have hes : (checkForUpdates now bs sb ls sl send).status.emailStatus =
      (if ((!(blogCheckStep bs sb).2.1.isEmpty || !(lediCheckStep ls sl).2.1.isEmpty) &&
          decide (((blogCheckStep bs sb).2.1 ++ (lediCheckStep ls sl).2.1).length > 0)) = true
       then match send ((blogCheckStep bs sb).2.1 ++ (lediCheckStep ls sl).2.1) with
            | Except.ok emailsSent => if emailsSent = 0 then "warning" else "ok"
            | Except.error _ => "error"
       else "ok") := rfl
  refine ⟨?_, ?_, ?_, ?_⟩
  · intro n hsend
    rw [hnot] at hsend
    rw [hes, if_pos hguard, hsend]
    show (if n = 0 then "warning" else "ok") = "warning" ↔ n = 0
    constructor
    · intro hw
      by_contra hn
      rw [if_neg hn] at hw
      exact absurd hw (by decide)
    · intro hn
      rw [if_pos hn]
  · intro hsend
    rw [hnot] at hsend
    rw [hes, if_pos hguard, hsend]
  · intro cur hbs hnew
    have hkv : (checkForUpdates now bs sb ls sl send).blogKv =
        (blogCheckStep bs sb).2.2 := rfl
    rw [hkv, hbs]
    simp [blogCheckStep, hnew]
  · intro cur hls hnew
    have hkv : (checkForUpdates now bs sb ls sl send).lediKv =
        (lediCheckStep ls sl).2.2 := rfl
    rw [hkv, hls]
    simp [lediCheckStep, hnew]

/-- Witness for C6 amended: a concrete run with one queued notification
whose send call reported zero emails sent has email status `warning`. -/
theorem email_status_policy_witness :
    (checkForUpdates "t" (Except.ok ⟨some "T", some "L", none⟩) none (Except.error ()) none
        fun _ => Except.ok 0).status.emailStatus = "warning" :=
  ((email_status_policy "t" (Except.ok ⟨some "T", some "L", none⟩) none (Except.error ())
      none (fun _ => Except.ok 0) _ rfl (by decide)).1 0 rfl).mpr rfl

/-- C7: with more than one notification in a run, `sendNotificationEmails`
makes exactly one (consolidated) send attempt per subscriber — in
particular 2 subscribers and 2 notification types yield 2 attempts, not
4 — and with exactly one notification of a known type (`blog` or `ledi`) it
makes one attempt per subscriber for that type. -/
theorem notification_fanout (kvEmails : List String) (ns : List Notification)
    (n : Notification) (sendOk : String → String → Bool) :
    (ns.length > 1 →
      (sendNotificationEmails kvEmails ns sendOk).2 =
        (jsSetOfList kvEmails).map fun e => (e, consolidatedSubject ns.length)) ∧
    (ns.length > 1 →
      (sendNotificationEmails kvEmails ns sendOk).2.length =
        (jsSetOfList kvEmails).length) ∧
    ((n.type = "blog" ∨ n.type = "ledi") →
      (sendNotificationEmails kvEmails [n] sendOk).2.length =
        (jsSetOfList kvEmails).length) := by
  have hcons : ns.length > 1 →
      (sendNotificationEmails kvEmails ns sendOk).2 =
        (jsSetOfList kvEmails).map fun e => (e, consolidatedSubject ns.length) := by
    intro hlen
    simp only [sendNotificationEmails]
    by_cases he : (jsSetOfList kvEmails).isEmpty
    · rw [if_pos he]
      rw [List.isEmpty_iff] at he
      simp [he]
    · rw [if_neg he, if_pos (by omega : ns.length > 1)]
  refine ⟨hcons, ?_, ?_⟩
  · intro hlen
    rw [hcons hlen, List.length_map]
  · intro htype
    simp only [sendNotificationEmails]
    by_cases he : (jsSetOfList kvEmails).isEmpty
    · rw [if_pos he]
      rw [List.isEmpty_iff] at he
      simp [he]
    · rw [if_neg he]
      have hone : ¬ (([n] : List Notification).length > 1) := by simp
      rw [if_neg hone]
      rcases htype with h | h <;>
        simp [notifSubject, h, List.foldl_cons, List.foldl_nil]

/-- Witness for C7: with 2 subscribers, 2 notification types give exactly 2
send attempts and a single notification also gives exactly 2. -/
theorem notification_fanout_witness :
    (sendNotificationEmails ["a@b.c", "d@e.f"]
        [⟨"blog", NotifData.blog ⟨some "T", some "L", none⟩⟩,
         ⟨"ledi", NotifData.ledi ⟨some "V", none, none⟩⟩] fun _ _ => true).2.length = 2 ∧
    (sendNotificationEmails ["a@b.c", "d@e.f"]
        [⟨"blog", NotifData.blog ⟨some "T", some "L", none⟩⟩] fun _ _ => true).2.length = 2 := by
  constructor
  · rw [(notification_fanout ["a@b.c", "d@e.f"]
      [⟨"blog", NotifData.blog ⟨some "T", some "L", none⟩⟩,
       ⟨"ledi", NotifData.ledi ⟨some "V", none, none⟩⟩]
      ⟨"blog", NotifData.blog ⟨some "T", some "L", none⟩⟩ (fun _ _ => true)).2.1
      (by decide)]
    decide
  · rw [(notification_fanout ["a@b.c", "d@e.f"] []
      ⟨"blog", NotifData.blog ⟨some "T", some "L", none⟩⟩ (fun _ _ => true)).2.2
      (Or.inl rfl)]
    decide

/-- C8: subscription is idempotent.  For a valid email whose normalized form
is not yet stored, the first request succeeds (200, success message, a
confirmation email attempted) and the second request over the resulting
store answers 200 with the already-subscribed message, attempts no
confirmation email, performs no second insertion, and leaves exactly one
copy of the normalized address in the stored subscriber set. -/
theorem subscription_idempotent (email : String) (kv : List String) (o1 o2 : SubOutcome)
    (hvalid : isValidEmail (some email) = true)
    (hnew : normalizeEmail email ∉ kv)
    (h1 : o1 = handleSubscription (some email) kv true)
    (h2 : o2 = handleSubscription (some email) o1.kvAfter true) :
    o1.status = 200 ∧ o1.message = msgSubscribed ∧ o1.confirmationAttempted = true ∧
    o2.status = 200 ∧ o2.message = msgAlreadySubscribed ∧
    o2.confirmationAttempted = false ∧
    o2.kvAfter = o1.kvAfter ∧
    o2.kvAfter.count (normalizeEmail email) = 1 := by
  have hmemno : normalizeEmail email ∉ jsSetOfList kv := by
    rw [jsSetOfList_mem]
    exact hnew
  have ho1 : o1 = ⟨200, msgSubscribed, jsSetOfList kv ++ [normalizeEmail email], true⟩ := by
    rw [h1]
    simp only [handleSubscription]
    rw [if_neg (by simp [hvalid]), if_neg hmemno]
    simp [storeEmails]
  have hkv1 : o1.kvAfter = jsSetOfList kv ++ [normalizeEmail email] := by rw [ho1]
  have hmem2 : normalizeEmail email ∈ jsSetOfList o1.kvAfter := by
    rw [jsSetOfList_mem, hkv1]
    simp
  have ho2 : o2 = ⟨200, msgAlreadySubscribed, o1.kvAfter, false⟩ := by
    rw [h2]
    simp only [handleSubscription]
    rw [if_neg (by simp [hvalid]), if_pos hmem2]
  have hcount : o1.kvAfter.count (normalizeEmail email) = 1 := by
    rw [hkv1, List.count_append, List.count_eq_zero.mpr hmemno]
    simp
  refine ⟨by rw [ho1], by rw [ho1], by rw [ho1], by rw [ho2], by rw [ho2], by rw [ho2],
    by rw [ho2], by rw [ho2]; exact hcount⟩

/-- Witness for C8: subscribing `a@b.c` twice from an empty store yields the
already-subscribed message on the second call and a stored set holding
exactly one copy. -/
theorem subscription_idempotent_witness :
    (handleSubscription (some "a@b.c")
        (handleSubscription (some "a@b.c") [] true).kvAfter true).message =
      msgAlreadySubscribed ∧
    (handleSubscription (some "a@b.c")
        (handleSubscription (some "a@b.c") [] true).kvAfter true).kvAfter.count
        (normalizeEmail "a@b.c") = 1 :=
  have h := subscription_idempotent "a@b.c" [] _ _ (by decide) (by simp) rfl rfl
  ⟨h.2.2.2.2.1, h.2.2.2.2.2.2.2⟩

/-- C9: recovery performs at most one extra attempt.  The original error is
always logged; the 30-second wait and the single re-run of the full update
check happen exactly when the error message indicates a network-class
failure; a recovery run reporting at least one source `ok` returns partial
success without writing a status record; every other path persists a status
record carrying `lastError` and `recoveryAttempted = true` and returns
`false`, with no further retries. -/
theorem recovery_single_attempt (now errMsg : String)
    (recoveryRun : Except Unit RunResult) :
    (attemptRecovery now errMsg recoveryRun).originalLogged = true ∧
    (attemptRecovery now errMsg recoveryRun).recoveryRuns ≤ 1 ∧
    (attemptRecovery now errMsg recoveryRun).recoveryRuns =
      (if networkClassError errMsg then 1 else 0) ∧
    (attemptRecovery now errMsg recoveryRun).waits =
      (if networkClassError errMsg then [30000] else []) ∧
    (∀ r, recoveryRun = Except.ok r → networkClassError errMsg = true →
       (r.status.blogStatus = "ok" ∨ r.status.lediStatus = "ok") →
       (attemptRecovery now errMsg recoveryRun).result = true ∧
       (attemptRecovery now errMsg recoveryRun).statusWrite = none) ∧
    (∀ r, recoveryRun = Except.ok r → networkClassError errMsg = true →
       r.status.blogStatus ≠ "ok" → r.status.lediStatus ≠ "ok" →
       (attemptRecovery now errMsg recoveryRun).statusWrite =
         some (recoveryStatusRecord now errMsg) ∧
       (attemptRecovery now errMsg recoveryRun).result = false) ∧
    (recoveryRun = Except.error () → networkClassError errMsg = true →
       (attemptRecovery now errMsg recoveryRun).statusWrite =
         some (recoveryStatusRecord now errMsg) ∧
       (attemptRecovery now errMsg recoveryRun).result = false) ∧
    (networkClassError errMsg = false →
       (attemptRecovery now errMsg recoveryRun).statusWrite =
         some (recoveryStatusRecord now errMsg) ∧
       (attemptRecovery now errMsg recoveryRun).result = false) ∧
    (recoveryStatusRecord now errMsg).lastError = some errMsg ∧
    (recoveryStatusRecord now errMsg).recoveryAttempted = true := by
  by_cases hnet : networkClassError errMsg = true
  · cases recoveryRun with
    | ok r =>
      by_cases hok : (r.status.blogStatus = "ok" ∨ r.status.lediStatus = "ok")
      · have hb : (r.status.blogStatus = "ok" || r.status.lediStatus = "ok") = true := by
          rcases hok with h | h <;> simp [h]
        refine ⟨?_, ?_, ?_, ?_, ?_, ?_, ?_, ?_, rfl, rfl⟩ <;>
          simp_all [attemptRecovery, hnet, hb]
      · have hb : (r.status.blogStatus = "ok" || r.status.lediStatus = "ok") = false := by
          push_neg at hok
          simp [hok.1, hok.2]
        refine ⟨?_, ?_, ?_, ?_, ?_, ?_, ?_, ?_, rfl, rfl⟩ <;>
          simp_all [attemptRecovery, hnet, hb]
    | error u =>
      refine ⟨?_, ?_, ?_, ?_, ?_, ?_, ?_, ?_, rfl, rfl⟩ <;>
        simp_all [attemptRecovery, hnet]
  · simp only [Bool.not_eq_true] at hnet
    refine ⟨?_, ?_, ?_, ?_, ?_, ?_, ?_, ?_, rfl, rfl⟩ <;>
      simp_all [attemptRecovery, hnet]

/-- Witness for C9: a network-class failure (message containing `fetch`)
whose recovery run itself throws results in one re-run, the persisted
give-up record, and result `false`. -/
theorem recovery_single_attempt_witness :
    (attemptRecovery "t" "failed to fetch" (Except.error ())).statusWrite =
      some (recoveryStatusRecord "t" "failed to fetch") ∧
    (attemptRecovery "t" "failed to fetch" (Except.error ())).result = false ∧
    (attemptRecovery "t" "failed to fetch" (Except.error ())).recoveryRuns = 1 :=
  have h := recovery_single_attempt "t" "failed to fetch" (Except.error ())
  ⟨(h.2.2.2.2.2.2.1 rfl (by decide)).1, (h.2.2.2.2.2.2.1 rfl (by decide)).2,
   by rw [h.2.2.1]; decide⟩

/-- C10: for a valid, not-yet-subscribed email, the handler returns the 200
success response even when persisting the updated subscriber set fails:
`storeEmails` catches the put failure and returns `false`, the handler
ignores that value, so the client sees success while the KV content is
unchanged. -/
theorem subscribe_success_despite_store_failure (email : String) (kv : List String)
    (hvalid : isValidEmail (some email) = true)
    (hnew : normalizeEmail email ∉ kv) :
    (handleSubscription (some email) kv false).status = 200 ∧
    (handleSubscription (some email) kv false).message = msgSubscribed ∧
    (handleSubscription (some email) kv false).confirmationAttempted = true ∧
    (handleSubscription (some email) kv false).kvAfter = kv ∧
    (storeEmails kv false (jsSetOfList kv ++ [normalizeEmail email])).1 = false := by
  have hmemno : normalizeEmail email ∉ jsSetOfList kv := by
    rw [jsSetOfList_mem]
    exact hnew
  have h : handleSubscription (some email) kv false = ⟨200, msgSubscribed, kv, true⟩ := by
    simp only [handleSubscription]
    rw [if_neg (by simp [hvalid]), if_neg hmemno]
    simp [storeEmails]
  refine ⟨by rw [h], by rw [h], by rw [h], by rw [h], rfl⟩

/-- Witness for C10: subscribing `a@b.c` to an empty store with a failing
put still answers 200 with the success message while the store stays
empty. -/
theorem subscribe_success_despite_store_failure_witness :
    (handleSubscription (some "a@b.c") [] false).status = 200 ∧
    (handleSubscription (some "a@b.c") [] false).kvAfter = [] :=
  have h := subscribe_success_despite_store_failure "a@b.c" [] (by decide) (by simp)
  ⟨h.1, h.2.2.2.1⟩
